import Mathlib

/-!
Verification development for the `langchain-simple` example pipeline
(`run_example.py`, `config.py`): a shallow embedding of its data model,
lifecycle callbacks, prompt composition, output validation and
orchestration, together with theorems settling the specified properties.
-/

set_option maxRecDepth 4096
set_option linter.unusedVariables false

namespace TryCoagent

/-- Decidable equality of `Except` values, for evaluating run outcomes. -/
instance {ε α : Type} [DecidableEq ε] [DecidableEq α] : DecidableEq (Except ε α) := fun a b =>
  match a, b with
  | .ok x, .ok y => decidable_of_iff (x = y) (by simp)
  | .error e, .error f => decidable_of_iff (e = f) (by simp)
  | .ok _, .error _ => isFalse (by simp)
  | .error _, .ok _ => isFalse (by simp)

/-! ## Configuration (`config.py`) -/

/-- Default `OllamaConfig.model_name` (`config.py` line 15). -/
def model_name : String := "qwen3:8b"

/-- Field `RecipeConfig.max_recipes` (`config.py` line 26): the declared number of recipes. -/
def max_recipes : Nat := 3

/-- Field `RecipeConfig.default_ingredients` as filled in by `__post_init__`
(`config.py` lines 28-39). -/
def default_ingredients : List String :=
  ["chicken", "tomatoes", "onions", "garlic", "rice", "olive oil", "salt", "pepper"]

/-! ## Data model (`run_example.py` lines 32-46)

`Recipe` and `RecipeCollection` are the pydantic models declared in the
source; field names and primitive types are taken verbatim from the
`Field` declarations. -/

/-- The `Recipe` pydantic model (`run_example.py` lines 32-41). -/
structure Recipe where
  name : String
  ingredients : List String
  instructions : List String
  prep_time_minutes : Int
  cook_time_minutes : Int
  servings : Int
deriving DecidableEq, Repr

/-- The `RecipeCollection` pydantic model (`run_example.py` lines 44-46):
a plain list of `Recipe` values; note that the type imposes no length
constraint, the word "three" appears only in doc strings. -/
structure RecipeCollection where
  recipes : List Recipe
deriving DecidableEq, Repr

/-! ## Output parsing and validation

The raw model reply is parsed by `PydanticOutputParser` (an external
library): the text is first decoded as JSON and then validated against the
declared pydantic models.  The JSON decoding itself is external library
code, so a reply is modelled as `Option JsonValue`: `none` stands for text
the decoder rejects. -/

/-- A decoded JSON value (the external decoder's output shape). -/
inductive JsonValue where
  | jnull : JsonValue
  | jbool (b : Bool) : JsonValue
  | jstr (s : String) : JsonValue
  | jint (n : Int) : JsonValue
  | jarr (elems : List JsonValue) : JsonValue
  | jobj (fields : List (String × JsonValue)) : JsonValue

/-- First value bound to key `k` in a JSON object, as dict lookup does. -/
def getField (fields : List (String × JsonValue)) (k : String) : Option JsonValue :=
  (fields.find? (fun p => p.1 = k)).map (fun p => p.2)

/-- A JSON value read as a string field. -/
def asString : JsonValue → Option String
  | .jstr s => some s
  | _ => none

/-- A JSON value read as an integer field. -/
def asInt : JsonValue → Option Int
  | .jint n => some n
  | _ => none

/-- Validate every element of a list, all-or-nothing: `some` of the list
of results when every element validates, `none` as soon as one fails. -/
def optionAll {α β : Type} (f : α → Option β) : List α → Option (List β)
  | [] => some []
  | x :: xs =>
    match f x, optionAll f xs with
    | some y, some ys => some (y :: ys)
    | _, _ => none

/-- A JSON value read as a list-of-strings field. -/
def asStringList : JsonValue → Option (List String)
  | .jarr es => optionAll asString es
  | _ => none

/-- Modelled from the spec: pydantic validation of one `Recipe` object
(the validator itself is the external pydantic library; the required
field names and types are the declarations at `run_example.py` lines
32-41, all six fields required).  `none` is a validation failure. -/
def validateRecipe : JsonValue → Option Recipe
  | .jobj fs => do
    let nm ← getField fs "name" >>= asString
    let ing ← getField fs "ingredients" >>= asStringList
    let ins ← getField fs "instructions" >>= asStringList
    let prep ← getField fs "prep_time_minutes" >>= asInt
    let cook ← getField fs "cook_time_minutes" >>= asInt
    let serv ← getField fs "servings" >>= asInt
    pure ⟨nm, ing, ins, prep, cook, serv⟩
  | _ => none

/-- Modelled from the spec: pydantic validation of a `RecipeCollection`
object (`run_example.py` lines 44-46): one required field `recipes`
holding a list, each element validated as a `Recipe`; all-or-nothing. -/
def validateCollection : JsonValue → Option RecipeCollection
  | .jobj fs => do
    let v ← getField fs "recipes"
    match v with
    | .jarr es => do
      let rs ← optionAll validateRecipe es
      pure ⟨rs⟩
    | _ => none
  | _ => none

/-- The error kinds a pipeline run can surface (spec taxonomy, section 7).
`InvalidInput` appears in the taxonomy but, as proved below, is never
produced by the code. -/
inductive PipelineError where
  | InvalidInput : PipelineError
  | EndpointUnreachable : PipelineError
  | ModelError : PipelineError
  | MalformedOutput : PipelineError
  | SchemaViolation : PipelineError
deriving DecidableEq, Repr

/-- The full parsing step of `PydanticOutputParser` on a raw reply:
undecodable text (`none`) is `MalformedOutput`; decodable text failing
pydantic validation is `SchemaViolation`; otherwise the typed value. -/
def validateReply : Option JsonValue → Except PipelineError RecipeCollection
  | none => .error .MalformedOutput
  | some j =>
    match validateCollection j with
    | none => .error .SchemaViolation
    | some c => .ok c

/-! ## `MetadataExtractor` (`run_example.py` lines 49-100)

The callback handler.  A model response carries `generations`, a list of
lists of generation records; each record optionally carries a
`generation_info` dict with the usage counters `prompt_eval_count` and
`eval_count`. -/

/-- The usage counters of one generation record (`generation_info` keys
read at `run_example.py` lines 73-74). -/
structure GenerationInfo where
  prompt_eval_count : Nat
  eval_count : Nat
deriving DecidableEq, Repr

/-- One generation record of a response; `generation_info` may be absent. -/
structure Generation where
  generation_info : Option GenerationInfo
deriving DecidableEq, Repr

/-- The inner accumulation loop of `on_llm_end` over one candidate list
`gen` (`run_example.py` lines 70-76), translated faithfully: the guard
tests `gen_inner.generation_info`, but the counters are then read from
`gen[0].generation_info` — the FIRST record of the list — and reading
them raises (`TypeError`) when that first record has no info dict. -/
def accumChunkAux (gen : List Generation) :
    List Generation → Nat × Nat → Except String (Nat × Nat)
  | [], acc => .ok acc
  | g :: rest, (tin, tout) =>
    if g.generation_info.isSome then
      match gen.head? with
      | some g0 =>
        match g0.generation_info with
        | some info =>
          accumChunkAux gen rest (tin + info.prompt_eval_count, tout + info.eval_count)
        | none => .error "TypeError: NoneType object is not subscriptable"
      | none => .error "IndexError: list index out of range"
    else
      accumChunkAux gen rest (tin, tout)

/-- The outer accumulation loop of `on_llm_end` (`run_example.py`
lines 66-74): fold `accumChunkAux` over `response.generations`. -/
def accumUsage (generations : List (List Generation)) : Except String (Nat × Nat) :=
  generations.foldl
    (fun acc gen => do
      let t ← acc
      accumChunkAux gen gen t)
    (.ok (0, 0))

/-- Written from the spec's words ("accumulates input and output token
counts across all records, each record's own counters, records lacking
counters skipped"): the per-record sums, for comparison with the code's
`accumUsage`. -/
def specTokenSums (generations : List (List Generation)) : Nat × Nat :=
  generations.foldl
    (fun t gen =>
      gen.foldl
        (fun (t : Nat × Nat) g =>
          match g.generation_info with
          | some info => (t.1 + info.prompt_eval_count, t.2 + info.eval_count)
          | none => t)
        t)
    (0, 0)

/-- The `usage` dict built at `run_example.py` lines 79-83. -/
structure UsageTotals where
  input_tokens : Nat
  output_tokens : Nat
  total_tokens : Nat
deriving DecidableEq, Repr

/-- The `self.metadata` dict of `MetadataExtractor`, with the keys the
callbacks write.  Timestamps are abstract clock readings. -/
structure Metadata where
  start_time : Option Int := none
  end_time : Option Int := none
  duration : Option Int := none
  usage : Option UsageTotals := none
  error : Option String := none
deriving DecidableEq, Repr

/-- Callback `on_llm_start` (`run_example.py` lines 54-61): records the start
timestamp (model info and prompts are print-only side channels). -/
def on_llm_start (t : Int) (md : Metadata) : Metadata :=
  { md with start_time := some t }

/-- Callback `on_llm_end` (`run_example.py` lines 63-89): accumulate usage over the
response's generations (which may raise, see `accumChunkAux`), then set
`end_time`, derive `duration = end_time - start_time` (a `KeyError` if
`on_llm_start` never ran), and store the usage totals with
`total_tokens = input + output`. -/
def on_llm_end (t : Int) (generations : List (List Generation)) (md : Metadata) :
    Except String Metadata :=
  match accumUsage generations with
  | .error e => .error e
  | .ok (tin, tout) =>
    match md.start_time with
    | none => .error "KeyError: start_time"
    | some st =>
      .ok { md with
            end_time := some t
            duration := some (t - st)
            usage := some ⟨tin, tout, tin + tout⟩ }

/-- Callback `on_llm_error` (`run_example.py` lines 96-100): records the error
description, leaving the usage counters untouched. -/
def on_llm_error (e : String) (md : Metadata) : Metadata :=
  { md with error := some e }

/-! ## Prompt composition (`run_example.py` lines 141-177)

The chat template's human message, with `ingredients` and
`format_instructions` substituted, is the rendered prompt text.  The
template is split below into its literal pieces so that theorems can name
them; their concatenation is byte-for-byte the template text. -/

/-- The `system_prompt` string (`run_example.py` lines 141-144). -/
def system_prompt : String :=
  "You are a professional chef and cooking assistant.\n        Create exactly three practical and delicious recipes using the provided ingredients.\n        Each recipe should be complete with ingredients, instructions, and timing information.\n        Be creative but ensure the recipes are realistic and achievable."

/-- The human-message text before the interpolated ingredients
(`run_example.py` line 149). -/
def promptHead : String := "Create three recipes using these ingredients: "

/-- The human-message text between the ingredients and the format
instructions (`run_example.py` lines 150-151). -/
def promptMid : String := "\n\n            "

/-- The human-message text after the format instructions
(`run_example.py` lines 152-158). -/
def promptTail : String :=
  "\n\n            Make sure each recipe:\n            - Uses the provided ingredients prominently\n            - Has realistic preparation and cooking times\n            - Includes clear step-by-step instructions\n            - Specifies exact quantities for ingredients\n            "

/-- The join `", ".join(ingredients)` (`run_example.py` line 165). -/
def joinComma : List String → String
  | [] => ""
  | [x] => x
  | x :: y :: ys => x ++ (", " ++ joinComma (y :: ys))

/-- The rendered human message: the template of `run_example.py` lines
149-158 with `{ingredients}` and `{format_instructions}` substituted. -/
def renderedHumanText (instr : String) (items : List String) : String :=
  promptHead ++ joinComma items ++ promptMid ++ instr ++ promptTail

/-- The composed prompt sent to the model: system message followed by the
rendered human message. -/
def composedPrompt (instr : String) (items : List String) : String :=
  system_prompt ++ "\n" ++ renderedHumanText instr items

/-- Modelled from the spec: the schema-instruction text, "a textual
artifact embedded in the prompt, derived deterministically from the
OutputSchema" — produced by the external library call
`self.parser.get_format_instructions()`, which is not part of this
repository; represented by a fixed string. -/
def formatInstructions : String :=
  "The output should be formatted as a JSON instance that conforms to the JSON schema below."

/-- Number of occurrences of `pat` in `text`: the number of positions of
`text` at which `pat` occurs as a contiguous segment. -/
def countOccs (pat : List Char) : List Char → Nat
  | [] => if pat.isPrefixOf ([] : List Char) then 1 else 0
  | c :: rest => (if pat.isPrefixOf (c :: rest) then 1 else 0) + countOccs pat rest

/-! ## Orchestration (`run_example.py` lines 103-317)

The side effects of one run are modelled as a trace of events; each
telemetry call is recorded at its attempt (whether or not the remote
endpoint accepts it), and each `except` block that prints a warning
records a `warned` event.  The outcomes of the external calls — the model
reply and the success of each telemetry call — are the environment of the
run. -/

/-- The observable actions of one run. -/
inductive Event where
  | sessionStart : Event
  | modelInvoke : Event
  | promptLogged : Event
  | responseLogged : Event
  | sessionEnd (success : Bool) : Event
  | fileWrite (name : String) : Event
  | warned : Event
deriving DecidableEq, Repr

/-- Modelled from the spec: the model-call failures (`EndpointUnreachable`,
`ModelError`) of the external `OllamaLLM` endpoint wrapper, which is not
part of this repository. -/
inductive ModelFailure where
  | endpointUnreachable : ModelFailure
  | modelError : ModelFailure
deriving DecidableEq, Repr

/-- The pipeline error corresponding to a model-call failure. -/
def ModelFailure.toError : ModelFailure → PipelineError
  | .endpointUnreachable => .EndpointUnreachable
  | .modelError => .ModelError

/-- The environment of one `generate_structured_recipes` call: what the
model call yields (a failure, or a raw reply — `none` for undecodable
text), and whether each of the two telemetry calls succeeds. -/
structure GenEnv where
  modelReply : Except ModelFailure (Option JsonValue)
  logCallOk : Bool
  logResponseOk : Bool

/-- The logging block of `generate_structured_recipes` (`run_example.py`
lines 188-210), one `try` around both calls: `log_llm_call_new` is
attempted first; if it raises, the block warns and `log_llm_response` is
never attempted; otherwise the response call's arguments dereference
`metadata_extractor`, which raises `AttributeError` (also caught) when it
is `None`; otherwise `log_llm_response` is attempted and a failure is
likewise only warned about. -/
def loggingEvents (env : GenEnv) (metadata_extractor : Option Metadata) : List Event :=
  Event.promptLogged ::
    (if env.logCallOk then
      match metadata_extractor with
      | none => [Event.warned]
      | some _ => Event.responseLogged :: (if env.logResponseOk then [] else [Event.warned])
    else [Event.warned])

/-- Method `generate_structured_recipes` (`run_example.py` lines 130-212): compose
the prompt, invoke the chain (model then parser — parser failures
propagate), run the best-effort logging block, and return the parsed
collection.  There is no input validation: the ingredient list is joined
into the prompt whatever it is, and the model is always invoked. -/
def generate_structured_recipes (env : GenEnv) (ingredients : List String)
    (metadata_extractor : Option Metadata) :
    Except PipelineError RecipeCollection × List Event :=
  match env.modelReply with
  | .error mf => (.error mf.toError, [Event.modelInvoke])
  | .ok raw =>
    match validateReply raw with
    | .error e => (.error e, [Event.modelInvoke])
    | .ok c => (.ok c, Event.modelInvoke :: loggingEvents env metadata_extractor)

/-- The `output_file` constant (`run_example.py` line 281): the fixed name the result is
saved under. -/
def output_file : String := "generated_recipes.json"

/-- The environment of one `main` run: the generator's environment plus the
outcomes of the session-start and session-end telemetry calls, and the
extractor's metadata at logging time. -/
structure MainEnv where
  gen : GenEnv
  sessionStartOk : Bool
  sessionEndOk : Bool
  extractorState : Metadata

/-- What one `main` run yields: its event trace, what `main`'s caller
observes (`outcome`), the error the outer `except` block caught (if any),
and the file written. -/
structure MainResult where
  trace : List Event
  outcome : Except PipelineError Unit
  caught : Option PipelineError
  saved : Option (String × RecipeCollection)
deriving DecidableEq, Repr

/-- Function `main` (`run_example.py` lines 215-317): attempt session-start
(warn-only on failure), run the generator with the default ingredients and
a live extractor, then on success print the recipes, save them to
`output_file` and attempt session-end with a success summary; on any
caught error, attempt session-end with an error summary, print
troubleshooting hints, and return normally — the `except` block has no
`raise`, so no error reaches `main`'s caller.  `run_id` flows only into
telemetry payloads. -/
def mainRun (env : MainEnv) (run_id : String) : MainResult :=
  let startTrace := Event.sessionStart :: (if env.sessionStartOk then [] else [Event.warned])
  match generate_structured_recipes env.gen default_ingredients (some env.extractorState) with
  | (.ok c, genTrace) =>
    { trace := startTrace ++ genTrace
        ++ [Event.fileWrite output_file, Event.sessionEnd true]
        ++ (if env.sessionEndOk then [] else [Event.warned])
      outcome := .ok ()
      caught := none
      saved := some (output_file, c) }
  | (.error e, genTrace) =>
    { trace := startTrace ++ genTrace
        ++ [Event.sessionEnd false]
        ++ (if env.sessionEndOk then [] else [Event.warned])
      outcome := .ok ()
      caught := some e
      saved := none }

/-- The rank of a telemetry event in the order demanded per session:
session-start, prompt-logged, response-logged, session-end. -/
def telemetryKind : Event → Option Nat
  | .sessionStart => some 0
  | .promptLogged => some 1
  | .responseLogged => some 2
  | .sessionEnd _ => some 3
  | .modelInvoke => none
  | .fileWrite _ => none
  | .warned => none

/-- The telemetry events of a trace, by rank, in emission order. -/
def telemetrySeq (tr : List Event) : List Nat := tr.filterMap telemetryKind

/-- Whether an event is a local file write. -/
def isFileWriteEvent : Event → Bool
  | .fileWrite _ => true
  | .sessionStart => false
  | .modelInvoke => false
  | .promptLogged => false
  | .responseLogged => false
  | .sessionEnd _ => false
  | .warned => false

/-- The rank of an event in the combined order of telemetry attempts and
the model call. -/
def orderKind : Event → Option Nat
  | .sessionStart => some 0
  | .modelInvoke => some 1
  | .promptLogged => some 2
  | .responseLogged => some 3
  | .sessionEnd _ => some 4
  | .fileWrite _ => none
  | .warned => none

/-- Telemetry and model-call events of a trace, by rank, in order. -/
def orderSeq (tr : List Event) : List Nat := tr.filterMap orderKind

/-! ## Concrete sample values -/

/-- A JSON recipe object conforming to the `Recipe` model. -/
def sampleRecipeJson (nm : String) : JsonValue :=
  .jobj [("name", .jstr nm),
         ("ingredients", .jarr [.jstr "chicken", .jstr "rice"]),
         ("instructions", .jarr [.jstr "Cook everything."]),
         ("prep_time_minutes", .jint 10),
         ("cook_time_minutes", .jint 20),
         ("servings", .jint 2)]

/-- The `Recipe` value `sampleRecipeJson` validates to. -/
def sampleRecipe (nm : String) : Recipe :=
  ⟨nm, ["chicken", "rice"], ["Cook everything."], 10, 20, 2⟩

/-- A fully conforming reply with three recipe records. -/
def threeRecipeReply : JsonValue :=
  .jobj [("recipes", .jarr [sampleRecipeJson "A", sampleRecipeJson "B", sampleRecipeJson "C"])]

/-- A reply whose records all conform but which has only two of them. -/
def twoRecipeReply : JsonValue :=
  .jobj [("recipes", .jarr [sampleRecipeJson "A", sampleRecipeJson "B"])]

/-- A recipe object missing the required `servings` field. -/
def noServingsJson : JsonValue :=
  .jobj [("name", .jstr "A"),
         ("ingredients", .jarr [.jstr "chicken"]),
         ("instructions", .jarr [.jstr "Cook."]),
         ("prep_time_minutes", .jint 10),
         ("cook_time_minutes", .jint 20)]

/-- A reply containing a record that misses a required field. -/
def missingFieldReply : JsonValue := .jobj [("recipes", .jarr [noServingsJson])]

/-- An empty extractor metadata dict. -/
def emptyMetadata : Metadata := ⟨none, none, none, none, none⟩

/-- A response with one candidate list holding two candidates that carry
different usage counters. -/
def twoCandidateResponse : List (List Generation) :=
  [[⟨some ⟨10, 20⟩⟩, ⟨some ⟨30, 40⟩⟩]]

/-- A response whose candidate list starts with a record lacking usage
counters, followed by one that has them. -/
def mixedCandidateResponse : List (List Generation) :=
  [[⟨none⟩, ⟨some ⟨5, 7⟩⟩]]

/-- A generator environment where the model succeeds with a conforming
three-recipe reply and all telemetry succeeds. -/
def genEnvOk : GenEnv := ⟨.ok (some threeRecipeReply), true, true⟩

/-- A main environment where everything succeeds. -/
def mainEnvOk : MainEnv := ⟨genEnvOk, true, true, emptyMetadata⟩

/-- A main environment where the model call fails. -/
def mainEnvModelFail : MainEnv := ⟨⟨.error .modelError, true, true⟩, true, true, emptyMetadata⟩

/-! ## Helper lemmas -/

/-- The output parser never yields the `InvalidInput` kind. -/
lemma validateReply_ne_invalid (raw : Option JsonValue) :
    validateReply raw ≠ Except.error PipelineError.InvalidInput := by
  cases raw with
  | none => simp [validateReply]
  | some j => cases hc : validateCollection j <;> simp [validateReply, hc]

/-- Lemma: `optionAll` fails when the function fails on some element. -/
lemma optionAll_none_of_mem {α β : Type} (f : α → Option β) :
    ∀ {l : List α} {a : α}, a ∈ l → f a = none → optionAll f l = none := by
  intro l
  induction l with
  | nil => intro a ha; cases ha
  | cons x xs ih =>
    intro a ha hf
    rcases List.mem_cons.mp ha with rfl | hmem
    · simp [optionAll, hf]
    · cases hx : f x with
      | none => simp [optionAll, hx]
      | some y => simp [optionAll, hx, ih hmem hf]

/-- Lemma: `optionAll` preserves length when it succeeds. -/
lemma optionAll_some_length {α β : Type} (f : α → Option β) :
    ∀ {l : List α} {l' : List β}, optionAll f l = some l' → l'.length = l.length := by
  intro l
  induction l with
  | nil => intro l' h; simp [optionAll] at h; simp [← h]
  | cons x xs ih =>
    intro l' h
    cases hx : f x with
    | none => simp [optionAll, hx] at h
    | some y =>
      cases hxs : optionAll f xs with
      | none => simp [optionAll, hx, hxs] at h
      | some ys =>
        simp [optionAll, hx, hxs] at h
        simp [← h, ih hxs]

/-- An element of a joined ingredient list occurs verbatim in the join. -/
lemma joinComma_mem_segment :
    ∀ {items : List String} {it : String}, it ∈ items →
      it.data <:+: (joinComma items).data := by
  intro items
  induction items with
  | nil => intro it h; cases h
  | cons x xs ih =>
    intro it h
    cases xs with
    | nil =>
      rcases List.mem_singleton.mp h with rfl
      exact List.infix_refl _
    | cons y ys =>
      rcases List.mem_cons.mp h with rfl | hmem
      · exact ⟨[], (", " ++ joinComma (y :: ys)).data, by simp [joinComma, String.data_append]⟩
      · exact (ih hmem).trans
          ⟨(x ++ ", ").data, [], by simp [joinComma, String.data_append]⟩

/-! ## Claim theorems -/

/-- C1.  The claim fails on the code: `on_llm_end` guards on
`gen_inner.generation_info` but then reads the counters from
`gen[0].generation_info`.  On a response with one candidate list holding
counters `(10,20)` and `(30,40)`, the code accumulates the first
candidate's counters twice, `(20,40)`, while the per-record sums are
`(40,60)`; and on a list whose first candidate lacks counters while a
later one has them, the code raises instead of skipping. -/
theorem on_llm_end_uses_first_candidate_counters :
    accumUsage twoCandidateResponse = Except.ok (20, 40)
    ∧ specTokenSums twoCandidateResponse = (40, 60)
    ∧ accumUsage twoCandidateResponse ≠ Except.ok (specTokenSums twoCandidateResponse)
    ∧ accumUsage mixedCandidateResponse
      = Except.error "TypeError: NoneType object is not subscriptable" := by
  refine ⟨by decide, by decide, by decide, by decide⟩

/-- C2.  The result handed to the caller — the generator's returned
collection/error, and `main`'s outcome, caught error, and saved artifact —
is the same whatever the outcomes of the four telemetry calls: each call
site catches its own failure and only warns. -/
theorem pipeline_result_independent_of_telemetry
    (reply : Except ModelFailure (Option JsonValue)) (b1 b2 b1' b2' s1 s2 s1' s2' : Bool)
    (ing : List String) (ext : Option Metadata) (md : Metadata) (rid : String) :
    (generate_structured_recipes ⟨reply, b1, b2⟩ ing ext).1
      = (generate_structured_recipes ⟨reply, b1', b2'⟩ ing ext).1
    ∧ (mainRun ⟨⟨reply, b1, b2⟩, s1, s2, md⟩ rid).outcome
      = (mainRun ⟨⟨reply, b1', b2'⟩, s1', s2', md⟩ rid).outcome
    ∧ (mainRun ⟨⟨reply, b1, b2⟩, s1, s2, md⟩ rid).caught
      = (mainRun ⟨⟨reply, b1', b2'⟩, s1', s2', md⟩ rid).caught
    ∧ (mainRun ⟨⟨reply, b1, b2⟩, s1, s2, md⟩ rid).saved
      = (mainRun ⟨⟨reply, b1', b2'⟩, s1', s2', md⟩ rid).saved := by
  cases reply with
  | error mf => simp [generate_structured_recipes, mainRun]
  | ok raw =>
    cases hv : validateReply raw with
    | error e => simp [generate_structured_recipes, mainRun, hv]
    | ok c => simp [generate_structured_recipes, mainRun, hv]

/-- C4, counterexample.  With an empty ingredient list the pipeline does
not fail fast: the model is invoked, telemetry is attempted, and the run
succeeds — there is no `InvalidInput` rejection anywhere. -/
theorem empty_ingredients_reach_model_call :
    (generate_structured_recipes genEnvOk [] (some emptyMetadata)).1
      = Except.ok ⟨[sampleRecipe "A", sampleRecipe "B", sampleRecipe "C"]⟩
    ∧ (generate_structured_recipes genEnvOk [] (some emptyMetadata)).2
      = [Event.modelInvoke, Event.promptLogged, Event.responseLogged] := by
  refine ⟨by decide, by decide⟩

/-- C4, amended.  The code performs no input validation at all: the run
never yields `InvalidInput`, the model is invoked whatever the ingredient
list, and the whole run is insensitive to the ingredient list — in
particular an empty list is processed like any other. -/
theorem no_invalid_input_rejection (env : GenEnv) (ing : List String) (ext : Option Metadata) :
    (generate_structured_recipes env ing ext).1 ≠ Except.error PipelineError.InvalidInput
    ∧ Event.modelInvoke ∈ (generate_structured_recipes env ing ext).2
    ∧ generate_structured_recipes env ing ext = generate_structured_recipes env [] ext := by
  refine ⟨?_, ?_, rfl⟩
  · cases env with
  | mk reply b1 b2 =>
    cases reply with
    | error mf => cases mf <;> simp [generate_structured_recipes, ModelFailure.toError]
    | ok raw =>
      have hne := validateReply_ne_invalid raw
      cases hv : validateReply raw with
      | error e =>
        rw [hv] at hne
        simp [generate_structured_recipes, hv]
        intro hEq
        exact hne (by rw [hEq])
      | ok c => simp [generate_structured_recipes, hv]
  · cases env with
  | mk reply b1 b2 =>
    cases reply with
    | error mf => simp [generate_structured_recipes]
    | ok raw =>
      cases hv : validateReply raw with
      | error e => simp [generate_structured_recipes, hv]
      | ok c => simp [generate_structured_recipes, hv, loggingEvents]

/-- C6.  After a completed `on_llm_end` observation following
`on_llm_start`, the stored usage satisfies
`total_tokens = input_tokens + output_tokens`, and
`duration = end_time - start_time` with the start timestamp the one
`on_llm_start` recorded. -/
theorem on_llm_end_total_and_duration
    (md : Metadata) (t0 t1 : Int) (gens : List (List Generation)) (md' : Metadata)
    (h : on_llm_end t1 gens (on_llm_start t0 md) = Except.ok md') :
    (∃ tin tout, md'.usage = some ⟨tin, tout, tin + tout⟩)
    ∧ md'.duration = some (t1 - t0)
    ∧ md'.start_time = some t0
    ∧ md'.end_time = some t1 := by
  cases ha : accumUsage gens with
  | error e => simp [on_llm_end, ha] at h
  | ok p =>
    obtain ⟨tin, tout⟩ := p
    simp [on_llm_end, ha, on_llm_start] at h
    subst h
    exact ⟨⟨tin, tout, rfl⟩, rfl, rfl, rfl⟩

/-- C6, witness: a concrete completed observation. -/
theorem on_llm_end_total_and_duration_witness :
    (∃ tin tout,
      (⟨some 5, some 9, some (9 - 5), some ⟨1, 2, 3⟩, none⟩ : Metadata).usage
        = some ⟨tin, tout, tin + tout⟩)
    ∧ (⟨some 5, some 9, some (9 - 5), some ⟨1, 2, 3⟩, none⟩ : Metadata).duration = some (9 - 5)
    ∧ (⟨some 5, some 9, some (9 - 5), some ⟨1, 2, 3⟩, none⟩ : Metadata).start_time = some 5
    ∧ (⟨some 5, some 9, some (9 - 5), some ⟨1, 2, 3⟩, none⟩ : Metadata).end_time = some 9 :=
  on_llm_end_total_and_duration emptyMetadata 5 9 [[⟨some ⟨1, 2⟩⟩]]
    ⟨some 5, some 9, some (9 - 5), some ⟨1, 2, 3⟩, none⟩ (by decide)

/-- C10.  Whenever the model call and parsing succeed, the generator
returns the parsed collection without raising, for every state of the
metadata extractor — including `none` (whose dereference raises inside
the logging block and is caught there) and metadata without a `usage`
entry: the single `try/except` absorbs every exception of the block. -/
theorem generate_returns_result_despite_extractor
    (env : GenEnv) (ing : List String) (ext : Option Metadata)
    (raw : Option JsonValue) (c : RecipeCollection)
    (h1 : env.modelReply = Except.ok raw) (h2 : validateReply raw = Except.ok c) :
    (generate_structured_recipes env ing ext).1 = Except.ok c := by
  cases env with
  | mk reply b1 b2 =>
    simp at h1
    subst h1
    simp [generate_structured_recipes, h2]

/-- C10, witness: both telemetry calls fail and the extractor is `None`,
yet the parsed collection is returned. -/
theorem generate_returns_result_despite_extractor_witness :
    (generate_structured_recipes ⟨Except.ok (some threeRecipeReply), false, false⟩
      ["chicken"] none).1
      = Except.ok ⟨[sampleRecipe "A", sampleRecipe "B", sampleRecipe "C"]⟩ :=
  generate_returns_result_despite_extractor _ _ _ (some threeRecipeReply)
    ⟨[sampleRecipe "A", sampleRecipe "B", sampleRecipe "C"]⟩ rfl (by decide)

/-- C3, counterexample.  A reply whose records all conform but which holds
only two of them passes validation: the declared `RecipeCollection` model
puts no length constraint on `recipes`, so the produced record count is 2,
not the declared arity `max_recipes = 3`. -/
theorem conforming_two_record_reply_accepted :
    validateReply (some twoRecipeReply)
      = Except.ok ⟨[sampleRecipe "A", sampleRecipe "B"]⟩
    ∧ (RecipeCollection.mk [sampleRecipe "A", sampleRecipe "B"]).recipes.length ≠ max_recipes := by
  refine ⟨by decide, by decide⟩

/-- C3, amended.  Unparseable text yields `MalformedOutput`; a reply whose
object misses the required `recipes` field, or whose `recipes` array
contains a record missing a required field, yields `SchemaViolation`; a
fully conforming reply validates to a collection whose record count equals
the number of records in the reply — the schema does not enforce the
declared arity of three. -/
theorem validation_behavior :
    validateReply none = Except.error PipelineError.MalformedOutput
    ∧ (∀ fs : List (String × JsonValue), getField fs "recipes" = none →
        validateReply (some (.jobj fs)) = Except.error PipelineError.SchemaViolation)
    ∧ (∀ (fs : List (String × JsonValue)) (es : List JsonValue) (e : JsonValue),
        getField fs "recipes" = some (.jarr es) → e ∈ es → validateRecipe e = none →
        validateReply (some (.jobj fs)) = Except.error PipelineError.SchemaViolation)
    ∧ (∀ (fs : List (String × JsonValue)) (es : List JsonValue) (rs : List Recipe),
        getField fs "recipes" = some (.jarr es) → optionAll validateRecipe es = some rs →
        validateReply (some (.jobj fs)) = Except.ok ⟨rs⟩
          ∧ (⟨rs⟩ : RecipeCollection).recipes.length = es.length) := by
  refine ⟨rfl, ?_, ?_, ?_⟩
  · intro fs h
    simp [validateReply, validateCollection, h]
  · intro fs es e hget hmem hf
    simp [validateReply, validateCollection, hget,
      optionAll_none_of_mem validateRecipe hmem hf]
  · intro fs es rs hget hall
    exact ⟨by simp [validateReply, validateCollection, hget, hall],
      by simpa using optionAll_some_length validateRecipe hall⟩

/-- C3, witness: a record missing its required `servings` field makes the
whole reply a `SchemaViolation`, and the conforming three-record reply
validates to a three-record collection. -/
theorem validation_behavior_witness :
    validateReply (some missingFieldReply) = Except.error PipelineError.SchemaViolation
    ∧ validateReply (some threeRecipeReply)
        = Except.ok ⟨[sampleRecipe "A", sampleRecipe "B", sampleRecipe "C"]⟩ :=
  ⟨validation_behavior.2.2.1 [("recipes", .jarr [noServingsJson])] [noServingsJson]
      noServingsJson (by rfl) (by simp) (by rfl),
   (validation_behavior.2.2.2
      [("recipes", .jarr [sampleRecipeJson "A", sampleRecipeJson "B", sampleRecipeJson "C"])]
      [sampleRecipeJson "A", sampleRecipeJson "B", sampleRecipeJson "C"]
      [sampleRecipe "A", sampleRecipe "B", sampleRecipe "C"]
      (by rfl) (by rfl)).1⟩

/-- C5, counterexample.  On a failed model call, `main` attempts exactly
one error-summary session-end event — but then swallows the error: its
outer `except` block has no `raise`, so `main` returns normally and no
error kind reaches its caller. -/
theorem main_swallows_error :
    (mainRun mainEnvModelFail "recipe-gen-00000000").outcome = Except.ok ()
    ∧ (mainRun mainEnvModelFail "recipe-gen-00000000").caught = some PipelineError.ModelError
    ∧ (mainRun mainEnvModelFail "recipe-gen-00000000").trace.count (Event.sessionEnd false) = 1
    ∧ (mainRun mainEnvModelFail "recipe-gen-00000000").trace.count (Event.sessionEnd true) = 0 := by
  refine ⟨by decide, by decide, by decide, by decide⟩

/-- C5, amended.  Every run attempts exactly one session-end event: with
an error summary exactly when the run errored (and a success summary
otherwise); the caught error is exactly the generator's error; and `main`
always returns normally — the error is printed and swallowed, not
propagated to `main`'s caller. -/
theorem errored_run_session_end_once (env : MainEnv) (rid : String) :
    (mainRun env rid).trace.count (Event.sessionEnd false)
      = (if (mainRun env rid).caught = none then 0 else 1)
    ∧ (mainRun env rid).trace.count (Event.sessionEnd true)
      = (if (mainRun env rid).caught = none then 1 else 0)
    ∧ (mainRun env rid).outcome = Except.ok ()
    ∧ (mainRun env rid).caught
      = (match (generate_structured_recipes env.gen default_ingredients
            (some env.extractorState)).1 with
         | .ok _ => none
         | .error e => some e) := by
  rcases env with ⟨⟨reply, b1, b2⟩, s1, s2, md⟩
  cases reply with
  | error mf =>
    cases s1 <;> cases s2 <;>
      simp [mainRun, generate_structured_recipes, loggingEvents, List.count_append,
        List.count_cons]
  | ok raw =>
    cases hv : validateReply raw with
    | error e =>
      cases s1 <;> cases s2 <;>
        simp [mainRun, generate_structured_recipes, hv, loggingEvents, List.count_append,
          List.count_cons]
    | ok c =>
      cases s1 <;> cases s2 <;> cases b1 <;> cases b2 <;>
        simp [mainRun, generate_structured_recipes, hv, loggingEvents, List.count_append,
          List.count_cons]

/-- C7, counterexample.  For an input item that itself embeds the
schema-instruction text, the composed prompt contains the instruction
text twice, not exactly once. -/
theorem instruction_text_twice_when_item_embeds_it :
    ([formatInstructions] : List String) ≠ []
    ∧ countOccs formatInstructions.data
        (composedPrompt formatInstructions [formatInstructions]).data = 2 := by
  refine ⟨by decide, by decide⟩

/-- C7, amended.  For every non-empty item list, the composed prompt
contains every item verbatim as a substring, and contains the
schema-instruction text as a substring (at least once; exactly once is
not guaranteed when an item embeds the instruction text). -/
theorem prompt_contains_items_and_instructions
    (instr : String) (items : List String) (hne : items ≠ []) :
    (∀ it ∈ items, it.data <:+: (composedPrompt instr items).data)
    ∧ instr.data <:+: (composedPrompt instr items).data := by
  constructor
  · intro it hit
    exact (joinComma_mem_segment hit).trans
      ⟨(system_prompt ++ "\n" ++ promptHead).data,
        (promptMid ++ instr ++ promptTail).data,
        by simp [composedPrompt, renderedHumanText, String.data_append]⟩
  · exact ⟨(system_prompt ++ "\n" ++ promptHead ++ joinComma items ++ promptMid).data,
      promptTail.data,
      by simp [composedPrompt, renderedHumanText, String.data_append]⟩

/-- C7, witness: with the default-style items, each item occurs verbatim
and the instruction text occurs in the prompt. -/
theorem prompt_contains_items_and_instructions_witness :
    "chicken".data <:+: (composedPrompt formatInstructions ["chicken", "rice"]).data
    ∧ formatInstructions.data <:+: (composedPrompt formatInstructions ["chicken", "rice"]).data :=
  ⟨(prompt_contains_items_and_instructions formatInstructions ["chicken", "rice"]
      (by decide)).1 "chicken" (by decide),
   (prompt_contains_items_and_instructions formatInstructions ["chicken", "rice"]
      (by decide)).2⟩

/-- C8.  In every run, the attempted telemetry events appear in the order
session-start, prompt-logged, response-logged, session-end (each at most
once); the session-start attempt precedes the model call and the
session-end attempt comes last among these events; and in a successful run
whose prompt-logging call does not itself fail, all four events are
attempted, in exactly that order. -/
theorem telemetry_event_order (env : MainEnv) (rid : String) :
    List.Sublist (telemetrySeq (mainRun env rid).trace) [0, 1, 2, 3]
    ∧ (orderSeq (mainRun env rid).trace).take 2 = [0, 1]
    ∧ (orderSeq (mainRun env rid).trace).getLast? = some 4
    ∧ ((mainRun env rid).caught = none → env.gen.logCallOk = true →
        telemetrySeq (mainRun env rid).trace = [0, 1, 2, 3]) := by
  rcases env with ⟨⟨reply, b1, b2⟩, s1, s2, md⟩
  cases reply with
  | error mf =>
    cases s1 <;> cases s2 <;>
      simp [mainRun, generate_structured_recipes, loggingEvents, telemetrySeq, orderSeq,
        telemetryKind, orderKind, List.filterMap_append, List.filterMap_cons,
        List.filterMap_nil]
  | ok raw =>
    cases hv : validateReply raw with
    | error e =>
      cases s1 <;> cases s2 <;>
        simp [mainRun, generate_structured_recipes, hv, loggingEvents, telemetrySeq,
          orderSeq, telemetryKind, orderKind, List.filterMap_append, List.filterMap_cons,
          List.filterMap_nil]
    | ok c =>
      cases s1 <;> cases s2 <;> cases b1 <;> cases b2 <;>
        simp [mainRun, generate_structured_recipes, hv, loggingEvents, telemetrySeq,
          orderSeq, telemetryKind, orderKind, List.filterMap_append, List.filterMap_cons,
          List.filterMap_nil]

/-- C8, witness: in the all-success run all four telemetry events are
attempted in order session-start, prompt-logged, response-logged,
session-end. -/
theorem telemetry_event_order_witness :
    telemetrySeq (mainRun mainEnvOk "recipe-gen-00000001").trace = [0, 1, 2, 3] :=
  (telemetry_event_order mainEnvOk "recipe-gen-00000001").2.2.2 (by decide) (by decide)

/-- C9, counterexample.  The validated result is saved under the fixed
name `generated_recipes.json`: two runs with distinct run ids save under
the identical name, and the run id occurs nowhere in the file name — the
file is not named for the run. -/
theorem output_file_not_named_for_run :
    (mainRun mainEnvOk "recipe-gen-11111111").saved
      = some (output_file, ⟨[sampleRecipe "A", sampleRecipe "B", sampleRecipe "C"]⟩)
    ∧ (mainRun mainEnvOk "recipe-gen-22222222").saved
      = (mainRun mainEnvOk "recipe-gen-11111111").saved
    ∧ countOccs "recipe-gen-11111111".data output_file.data = 0 := by
  refine ⟨by decide, by decide, by decide⟩

/-- C9, amended.  On success the validated result is serialized to the
fixed local file `generated_recipes.json` — the same name whatever the
run id, so the file is not named for the run — and this write is the only
local persistence: the trace holds exactly one file write on success and
none on error, always to that fixed name. -/
theorem saved_artifact_fixed_name (env : MainEnv) (rid rid' : String) :
    (mainRun env rid).saved = (mainRun env rid').saved
    ∧ (mainRun env rid).trace.filter isFileWriteEvent
      = (if (mainRun env rid).caught = none then [Event.fileWrite output_file] else [])
    ∧ (mainRun env rid).saved.map Prod.fst
      = (if (mainRun env rid).caught = none then some output_file else none) := by
  refine ⟨rfl, ?_, ?_⟩ <;>
  · rcases env with ⟨⟨reply, b1, b2⟩, s1, s2, md⟩
    cases reply with
    | error mf =>
      cases s1 <;> cases s2 <;>
        simp [mainRun, generate_structured_recipes, loggingEvents, isFileWriteEvent,
          List.filter_append]
    | ok raw =>
      cases hv : validateReply raw with
      | error e =>
        cases s1 <;> cases s2 <;>
          simp [mainRun, generate_structured_recipes, hv, loggingEvents, isFileWriteEvent,
            List.filter_append]
      | ok c =>
        cases s1 <;> cases s2 <;> cases b1 <;> cases b2 <;>
          simp [mainRun, generate_structured_recipes, hv, loggingEvents, isFileWriteEvent,
            List.filter_append]

end TryCoagent
